import Mathlib

/-!
Shallow embedding of the skywire VPN server core (internal/vpn/server.go):
the address pool, the handshake protocol run by shakeHands, the Serve
lifecycle bracket around global forwarding and masquerading state, and the
privilege bracket of serveConn around per-connection TUN setup.
-/

/-- An IPv4 address as four octet values. In this development every address
is a 4-octet address; where the source adds to an octet, the byte
arithmetic is made explicit with mod 256. -/
structure IPv4 where
  o0 : Nat
  o1 : Nat
  o2 : Nat
  o3 : Nat
deriving DecidableEq, Repr

/-- Numeric value of an address, used to state address arithmetic such as
base plus 4. -/
def IPv4.toNat (ip : IPv4) : Nat :=
  ((ip.o0 * 256 + ip.o1) * 256 + ip.o2) * 256 + ip.o3

/-- Mirrors net.IPv4(a, b, c, d): each argument is a Go byte, so every
value is truncated mod 256. -/
def netIPv4 (a b c d : Nat) : IPv4 :=
  ⟨a % 256, b % 256, c % 256, d % 256⟩

/-- A client-declared address: either a well-formed IPv4 address or a
malformed one (Reserve fails only on a malformed address, server.go
line 257). -/
inductive DeclIP
  | valid (ip : IPv4)
  | malformed
deriving DecidableEq, Repr

/-- ClientHello wire message: passcode plus the ordered list of
client-declared unavailable private addresses. -/
structure ClientHello where
  Passcode : String
  UnavailablePrivateIPs : List DeclIP
deriving DecidableEq, Repr

/-- Modelled from the spec: the HandshakeStatus enumeration (its Go
declaration is not under src) is an integer enumeration listed in the
order OK, Forbidden, BadRequest, NoFreeIPs, InternalError, so OK is the
zero value. -/
def HandshakeStatusOK : Nat := 0

/-- Modelled from the spec: Forbidden status code. -/
def HandshakeStatusForbidden : Nat := 1

/-- Modelled from the spec: BadRequest status code. -/
def HandshakeStatusBadRequest : Nat := 2

/-- Modelled from the spec: NoFreeIPs status code (the source constant is
named HandshakeNoFreeIPs, server.go line 269). -/
def HandshakeNoFreeIPs : Nat := 3

/-- Modelled from the spec: InternalError status code. -/
def HandshakeStatusInternalError : Nat := 4

/-- ServerHello wire message; the field defaults are the Go zero values
given to it by var sHello ServerHello (server.go line 244). -/
structure ServerHello where
  Status : Nat := 0
  TUNIP : Option IPv4 := none
  TUNGateway : Option IPv4 := none
deriving DecidableEq, Repr

/-- The zero-valued ServerHello, as declared by var sHello ServerHello. -/
def zeroServerHello : ServerHello := {}

/-- Server configuration; only the passcode matters to the handshake. -/
structure ServerConfig where
  Passcode : String
deriving DecidableEq, Repr

/-- Modelled from the spec: the address pool (IPGenerator, whose Go file is
not under src). It owns a /16 private space partitioned into /29 blocks of
8 addresses, and tracks a cursor over block indices, the reserved block
indices and the allocated block indices (spec section 4.1). -/
structure IPGenerator where
  net0 : Nat := 192
  net1 : Nat := 168
  cursor : Nat := 0
  reserved : List Nat := []
  allocated : List Nat := []
deriving DecidableEq, Repr

/-- Number of /29 blocks in the /16 pool. -/
def numBlocks : Nat := 8192

/-- NewIPGenerator: a fresh pool over 192.168.0.0/16. -/
def NewIPGenerator : IPGenerator := {}

/-- Base address of block k: byte offset k * 8 within the /16. -/
def blockBase (g : IPGenerator) (k : Nat) : IPv4 :=
  ⟨g.net0, g.net1, k * 8 / 256, k * 8 % 256⟩

/-- Index of the block containing ip, when ip lies in the pool space. -/
def blockIndexOf (g : IPGenerator) (ip : IPv4) : Option Nat :=
  if ip.o0 = g.net0 ∧ ip.o1 = g.net1 then some ((ip.o2 * 256 + ip.o3) / 8)
  else none

/-- Modelled from the spec: Reserve marks the block containing ip
unavailable for future allocation, fails on a malformed address, and is
idempotent (spec section 4.1). -/
def IPGenerator.Reserve (g : IPGenerator) (ip : DeclIP) :
    Except String IPGenerator :=
  match ip with
  | .malformed => .error "malformed IP address"
  | .valid ip =>
    match blockIndexOf g ip with
    | some k =>
      .ok (if g.reserved.contains k then g
           else { g with reserved := k :: g.reserved })
    | none => .ok g

/-- Cursor scan for the first unreserved block index at or after k. -/
def findFree (g : IPGenerator) : Nat → Nat → Option Nat
  | _, 0 => none
  | k, fuel + 1 =>
    if k < numBlocks then
      if g.reserved.contains k then findFree g (k + 1) fuel else some k
    else none

/-- Modelled from the spec: Next returns the next unreserved, not yet
allocated block, atomically marks it allocated and advances the cursor;
it fails when the pool is exhausted (spec section 4.1). -/
def IPGenerator.Next (g : IPGenerator) : Except String (IPv4 × IPGenerator) :=
  match findFree g g.cursor numBlocks with
  | some k =>
    .ok (blockBase g k, { g with cursor := k + 1, allocated := k :: g.allocated })
  | none => .error "no free IPs left"

/-- Observable actions of one handshake: pool calls and hello sends, each
send recorded together with the outcome of its write attempt. -/
inductive HEvent
  | reserveCall (ip : DeclIP)
  | nextCall
  | sendHello (h : ServerHello) (ok : Bool)
deriving DecidableEq, Repr

/-- Outcome of shakeHands: final pool state, the event trace, and either an
error or the server-side pair (tunIP, tunGateway). -/
structure ShakeResult where
  gen : IPGenerator
  events : List HEvent
  result : Except String (IPv4 × IPv4)

/-- The reservation loop of shakeHands (server.go lines 255 to 265):
reserve each declared address in order, stopping at the first failure;
returns the final pool, the reserve-call events and whether all calls
succeeded. -/
def reserveAll (g : IPGenerator) : List DeclIP → IPGenerator × List HEvent × Bool
  | [] => (g, [], true)
  | ip :: rest =>
    match g.Reserve ip with
    | .ok g2 =>
      match reserveAll g2 rest with
      | (g3, evs, ok) => (g3, .reserveCall ip :: evs, ok)
    | .error _ => (g, [.reserveCall ip], false)

/-- fetchIPv4Octets on a 4-octet address (every address of this model is
IPv4, so the failure branch of the Go function, which would answer with
status InternalError, is unreachable here). -/
def fetchIPv4Octets (ip : IPv4) : Nat × Nat × Nat × Nat :=
  (ip.o0, ip.o1, ip.o2, ip.o3)

/-- The four derived TUN addresses (server.go lines 295 to 299): server TUN
IP, server TUN gateway, client TUN IP, client TUN gateway, each built with
net.IPv4 from the subnet octets with an offset added to the fourth octet
in byte arithmetic. -/
def tunAddresses (o0 o1 o2 o3 : Nat) : IPv4 × IPv4 × IPv4 × IPv4 :=
  (netIPv4 o0 o1 o2 (o3 + 2), netIPv4 o0 o1 o2 (o3 + 1),
   netIPv4 o0 o1 o2 (o3 + 4), netIPv4 o0 o1 o2 (o3 + 3))

/-- shakeHands (server.go lines 236 to 309). Inputs: the server config, the
decoded ClientHello (none models a read or decode failure), whether the
final WriteJSON succeeds, and the pool state. -/
def shakeHands (cfg : ServerConfig) (hello : Option ClientHello)
    (sendOk : Bool) (g : IPGenerator) : ShakeResult :=
  match hello with
  | none => ⟨g, [], .error "error reading client hello"⟩
  | some cHello =>
    if cfg.Passcode ≠ "" ∧ cHello.Passcode ≠ cfg.Passcode then
      ⟨g, [.sendHello { Status := HandshakeStatusForbidden } sendOk],
       .error "got wrong passcode from client"⟩
    else
      match reserveAll g cHello.UnavailablePrivateIPs with
      | (g1, evs, false) =>
        ⟨g1, evs ++ [.sendHello { Status := HandshakeStatusBadRequest } sendOk],
         .error "error reserving IP"⟩
      | (g1, evs, true) =>
        match g1.Next with
        | .error _ =>
          ⟨g1, evs ++ [.nextCall, .sendHello { Status := HandshakeNoFreeIPs } sendOk],
           .error "error getting free subnet IP"⟩
        | .ok (subnet, g2) =>
          match fetchIPv4Octets subnet with
          | (o0, o1, o2, o3) =>
            match tunAddresses o0 o1 o2 o3 with
            | (sTUNIP, sTUNGateway, cTUNIP, cTUNGateway) =>
              let sHello : ServerHello :=
                { zeroServerHello with
                    TUNIP := some cTUNIP, TUNGateway := some cTUNGateway }
              if sendOk then
                ⟨g2, evs ++ [.nextCall, .sendHello sHello true],
                 .ok (sTUNIP, sTUNGateway)⟩
              else
                ⟨g2, evs ++ [.nextCall, .sendHello sHello false],
                 .error "error sending server hello"⟩

/-- Number of ServerHello send attempts in a handshake trace. -/
def countSends : List HEvent → Nat
  | [] => 0
  | .sendHello _ _ :: rest => countSends rest + 1
  | .reserveCall _ :: rest => countSends rest
  | .nextCall :: rest => countSends rest

/-- Number of address-pool operations (Reserve or Next calls) in a
handshake trace. -/
def countPoolOps : List HEvent → Nat
  | [] => 0
  | .sendHello _ _ :: rest => countPoolOps rest
  | .reserveCall _ :: rest => countPoolOps rest + 1
  | .nextCall :: rest => countPoolOps rest + 1

/-- Server lifecycle state relevant to Serve (server.go lines 14 to 24):
the sync.Once guard and the values captured at construction. -/
structure ServerState where
  onceDone : Bool
  ipv4ForwardingVal : String
  ipv6ForwardingVal : String
  defaultNetworkInterface : String
deriving DecidableEq, Repr

/-- Outcomes of the external calls Serve makes, fixed up front so the model
stays a pure function: privilege setup, the three enable steps, the three
restoration steps and the privilege re-acquisition before teardown. -/
structure ServeWorld where
  privSetupOk : Bool
  enableIPv4Ok : Bool
  enableIPv6Ok : Bool
  enableMasqOk : Bool
  restoreIPv4Ok : Bool
  restoreIPv6Ok : Bool
  disableMasqOk : Bool
  privReSetupOk : Bool
deriving DecidableEq, Repr

/-- Observable global actions of Serve, each attempt recorded with its
outcome. -/
inductive GEvent
  | privSetup (ok : Bool)
  | privRelease
  | enableIPv4 (ok : Bool)
  | enableIPv6 (ok : Bool)
  | enableMasq (ifc : String) (ok : Bool)
  | setIPv4 (v : String) (ok : Bool)
  | setIPv6 (v : String) (ok : Bool)
  | disableMasq (ifc : String) (ok : Bool)
  | acceptLoop
deriving DecidableEq, Repr

/-- Serve (server.go lines 68 to 146). The sync.Once guard means the body
runs only on the first call; every later call leaves serveErr at its
initial value, the error already serving, and performs nothing. Inside the
body the deferred restorations run in reverse order of the enables, and
the accept loop (abstracted to one event) always ends in an accept
failure. Returns the new state, the event trace and the error message
Serve returns (it always returns a non-nil error). -/
def Serve (s : ServerState) (w : ServeWorld) :
    ServerState × List GEvent × String :=
  if s.onceDone then (s, [], "already serving")
  else
    let s2 := { s with onceDone := true }
    if w.privSetupOk = false then
      (s2, [.privSetup false], "failed to setup system privileges")
    else if w.enableIPv4Ok = false then
      (s2, [.privSetup true, .enableIPv4 false, .privRelease],
       "error enabling IPv4 forwarding")
    else if w.enableIPv6Ok = false then
      (s2, [.privSetup true, .enableIPv4 true, .enableIPv6 false,
            .setIPv4 s.ipv4ForwardingVal w.restoreIPv4Ok, .privRelease],
       "error enabling IPv6 forwarding")
    else if w.enableMasqOk = false then
      (s2, [.privSetup true, .enableIPv4 true, .enableIPv6 true,
            .enableMasq s.defaultNetworkInterface false,
            .setIPv6 s.ipv6ForwardingVal w.restoreIPv6Ok,
            .setIPv4 s.ipv4ForwardingVal w.restoreIPv4Ok, .privRelease],
       "error enabling IP masquerading")
    else
      (s2, [.privSetup true, .enableIPv4 true, .enableIPv6 true,
            .enableMasq s.defaultNetworkInterface true,
            .privRelease, .acceptLoop,
            .privSetup w.privReSetupOk,
            .disableMasq s.defaultNetworkInterface w.disableMasqOk,
            .setIPv6 s.ipv6ForwardingVal w.restoreIPv6Ok,
            .setIPv4 s.ipv4ForwardingVal w.restoreIPv4Ok,
            .privRelease],
       "failed to accept client connection")

/-- Number of enable steps (IPv4 or IPv6 forwarding, masquerading) in a
Serve trace. -/
def countEnables : List GEvent → Nat
  | [] => 0
  | .enableIPv4 _ :: rest => countEnables rest + 1
  | .enableIPv6 _ :: rest => countEnables rest + 1
  | .enableMasq _ _ :: rest => countEnables rest + 1
  | _ :: rest => countEnables rest

/-- Observable actions of serveConn after the handshake: the privilege
bracket, TUN lifecycle steps, the relay phase and the connection close. -/
inductive CEvent
  | privSetup (ok : Bool)
  | privRelease
  | tunCreate (ok : Bool)
  | tunSetup (ok : Bool)
  | tunClose
  | relayStart
  | relayDone
  | connClose
deriving DecidableEq, Repr

/-- Outcomes of the external calls serveConn makes: whether the handshake
succeeded, and the results of privilege setup, TUN creation, TUN
configuration and the privilege re-acquisition before the relay. -/
structure ConnWorld where
  handshakeOk : Bool
  privOk : Bool
  tunOk : Bool
  tunSetupOk : Bool
  rePrivOk : Bool
deriving DecidableEq, Repr

/-- serveConn (server.go lines 169 to 234), as the event trace it produces
after shakeHands. On the full success path the source releases privileges
after SetupTUN and then immediately calls setupSysPrivileges again (lines
204 to 210, a plain call, not deferred), then starts the two relay
goroutines and waits for the first to finish; the deferred calls then
close the TUN, release privileges and close the connection. -/
def serveConn (w : ConnWorld) : List CEvent :=
  if w.handshakeOk = false then [.connClose]
  else if w.privOk = false then [.privSetup false, .connClose]
  else if w.tunOk = false then
    [.privSetup true, .tunCreate false, .privRelease, .connClose]
  else if w.tunSetupOk = false then
    [.privSetup true, .tunCreate true, .tunSetup false,
     .tunClose, .privRelease, .connClose]
  else
    [.privSetup true, .tunCreate true, .tunSetup true,
     .privRelease, .privSetup w.rePrivOk,
     .relayStart, .relayDone,
     .tunClose, .privRelease, .connClose]

/-- Change a single event makes to the count of held elevated privileges:
a successful setup acquires one, a release drops one. -/
def privDelta : CEvent → Int
  | .privSetup true => 1
  | .privSetup false => 0
  | .privRelease => -1
  | _ => 0

/-- Net held privileges after a trace. -/
def privDepth (tr : List CEvent) : Int :=
  (tr.map privDelta).sum

/-- The prefix of a trace strictly before the relay phase starts. -/
def takeUntilRelay : List CEvent → List CEvent
  | [] => []
  | .relayStart :: _ => []
  | e :: rest => e :: takeUntilRelay rest

/-- Whether a trace reaches the relay phase while elevated privileges are
still held. -/
def privHeldDuringRelay (tr : List CEvent) : Bool :=
  tr.contains .relayStart && decide (0 < privDepth (takeUntilRelay tr))

/-! ## Helper lemmas -/

/-- countSends distributes over trace concatenation. -/
theorem countSends_append (l1 l2 : List HEvent) :
    countSends (l1 ++ l2) = countSends l1 + countSends l2 := by
  induction l1 with
  | nil => simp [countSends]
  | cons e rest ih =>
    cases e with
    | reserveCall ip => simpa [countSends] using ih
    | nextCall => simpa [countSends] using ih
    | sendHello h ok => simp [countSends, ih]; omega

/-- The reservation loop never sends a hello. -/
theorem countSends_reserveAll (g : IPGenerator) (ips : List DeclIP) :
    countSends (reserveAll g ips).2.1 = 0 := by
  induction ips generalizing g with
  | nil => rfl
  | cons ip rest ih =>
    simp only [reserveAll]
    cases hR : g.Reserve ip with
    | ok g2 =>
      rcases hA : reserveAll g2 rest with ⟨g3, evs, ok⟩
      have h2 := ih g2
      rw [hA] at h2
      simpa [countSends, hA] using h2
    | error e => rfl

/-- A successful cursor scan yields an index below the block count. -/
theorem findFree_some_lt (g : IPGenerator) :
    ∀ fuel k j, findFree g k fuel = some j → j < numBlocks := by
  intro fuel
  induction fuel with
  | zero => intro k j h; simp [findFree] at h
  | succ fuel ih =>
    intro k j h
    simp only [findFree] at h
    split at h
    · split at h
      · exact ih _ _ h
      · simp only [Option.some.injEq] at h
        omega
    · exact absurd h (by simp)

/-- Structure of a successful Next call: the returned base is the base of
some block index below the block count, and the new state advances the
cursor past that index and marks it allocated. -/
theorem Next_shape (g : IPGenerator) (B : IPv4) (g2 : IPGenerator)
    (h : g.Next = .ok (B, g2)) :
    ∃ k, k < numBlocks ∧ B = blockBase g k ∧
      g2 = { g with cursor := k + 1, allocated := k :: g.allocated } := by
  unfold IPGenerator.Next at h
  cases hF : findFree g g.cursor numBlocks with
  | none => rw [hF] at h; simp at h
  | some k =>
    rw [hF] at h
    simp only [Except.ok.injEq, Prod.mk.injEq] at h
    exact ⟨k, findFree_some_lt g numBlocks g.cursor k hF, h.1.symm, h.2.symm⟩

/-- The fourth octet of a block base is a multiple of 8 below 252, so
adding any offset up to 4 never overflows the octet. -/
theorem blockBase_o3_bound (g : IPGenerator) (k : Nat) :
    (blockBase g k).o3 + 4 < 256 := by
  simp only [blockBase]
  omega

/-- The third octet of a block base within the pool is a valid octet. -/
theorem blockBase_o2_lt (g : IPGenerator) (k : Nat) (hk : k < numBlocks) :
    (blockBase g k).o2 < 256 := by
  simp only [blockBase, numBlocks] at *
  omega

/-- Value of a derived address: when no octet overflows, adding j to the
fourth octet adds j to the numeric address value. -/
theorem toNat_netIPv4_offset (B : IPv4) (j : Nat)
    (h0 : B.o0 < 256) (h1 : B.o1 < 256) (h2 : B.o2 < 256)
    (h3 : B.o3 + j < 256) :
    (netIPv4 B.o0 B.o1 B.o2 (B.o3 + j)).toNat = B.toNat + j := by
  simp only [netIPv4, IPv4.toNat]
  omega

/-- The complete shape of shakeHands on the path where the passcode check
passes, every reservation succeeds and allocation succeeds. -/
theorem shakeHands_success_eq (cfg : ServerConfig) (ch : ClientHello)
    (sendOk : Bool) (g g1 g2 : IPGenerator) (evs : List HEvent) (B : IPv4)
    (hpass : cfg.Passcode = "" ∨ ch.Passcode = cfg.Passcode)
    (hres : reserveAll g ch.UnavailablePrivateIPs = (g1, evs, true))
    (hnext : g1.Next = .ok (B, g2)) :
    shakeHands cfg (some ch) sendOk g =
      ⟨g2, evs ++ [.nextCall, .sendHello
          { Status := 0, TUNIP := some (netIPv4 B.o0 B.o1 B.o2 (B.o3 + 4)),
            TUNGateway := some (netIPv4 B.o0 B.o1 B.o2 (B.o3 + 3)) } sendOk],
        if sendOk then
          .ok (netIPv4 B.o0 B.o1 B.o2 (B.o3 + 2),
               netIPv4 B.o0 B.o1 B.o2 (B.o3 + 1))
        else .error "error sending server hello"⟩ := by
  have hc : ¬(cfg.Passcode ≠ "" ∧ ch.Passcode ≠ cfg.Passcode) := by
    rcases hpass with h | h
    · intro hx; exact hx.1 h
    · intro hx; exact hx.2 h
  cases sendOk <;>
    simp [shakeHands, if_neg hc, hres, hnext, fetchIPv4Octets, tunAddresses,
      zeroServerHello]

/-! ## Claim theorems -/

/-- C3: when the server has a non-empty passcode and the client passcode
differs, shakeHands sends a Forbidden ServerHello, returns an error, makes
no Reserve or Next call, and leaves the pool unchanged. -/
theorem shakeHands_forbidden_no_pool_interaction (cfg : ServerConfig)
    (ch : ClientHello) (sendOk : Bool) (g : IPGenerator)
    (hp : cfg.Passcode ≠ "") (hm : ch.Passcode ≠ cfg.Passcode) :
    shakeHands cfg (some ch) sendOk g =
      ⟨g, [.sendHello { Status := HandshakeStatusForbidden } sendOk],
       .error "got wrong passcode from client"⟩ ∧
    countPoolOps (shakeHands cfg (some ch) sendOk g).events = 0 ∧
    (shakeHands cfg (some ch) sendOk g).gen = g := by
  have hc : cfg.Passcode ≠ "" ∧ ch.Passcode ≠ cfg.Passcode := ⟨hp, hm⟩
  have he : shakeHands cfg (some ch) sendOk g =
      ⟨g, [.sendHello { Status := HandshakeStatusForbidden } sendOk],
       .error "got wrong passcode from client"⟩ := by
    simp [shakeHands, if_pos hc]
  exact ⟨he, by rw [he]; rfl, by rw [he]⟩

/-- C3 witness: a concrete mismatching passcode handshake. -/
theorem shakeHands_forbidden_no_pool_interaction_witness :
    shakeHands ⟨"secret"⟩ (some ⟨"wrong", []⟩) true NewIPGenerator =
      ⟨NewIPGenerator, [.sendHello { Status := HandshakeStatusForbidden } true],
       .error "got wrong passcode from client"⟩ ∧
    countPoolOps (shakeHands ⟨"secret"⟩ (some ⟨"wrong", []⟩) true NewIPGenerator).events = 0 ∧
    (shakeHands ⟨"secret"⟩ (some ⟨"wrong", []⟩) true NewIPGenerator).gen = NewIPGenerator :=
  shakeHands_forbidden_no_pool_interaction ⟨"secret"⟩ ⟨"wrong", []⟩ true
    NewIPGenerator (by decide) (by decide)

/-- C4: shakeHands attempts exactly one ServerHello send per handshake,
except that a ClientHello decode failure aborts with no send at all. -/
theorem shakeHands_sends_exactly_one_hello (cfg : ServerConfig)
    (hello : Option ClientHello) (sendOk : Bool) (g : IPGenerator) :
    countSends (shakeHands cfg hello sendOk g).events =
      if hello.isSome then 1 else 0 := by
  cases hello with
  | none => rfl
  | some ch =>
    simp only [Option.isSome_some, if_true]
    by_cases hc : cfg.Passcode ≠ "" ∧ ch.Passcode ≠ cfg.Passcode
    · simp [shakeHands, if_pos hc, countSends]
    · rcases hA : reserveAll g ch.UnavailablePrivateIPs with ⟨g1, evs, ok⟩
      have hevs : countSends evs = 0 := by
        have h2 := countSends_reserveAll g ch.UnavailablePrivateIPs
        rw [hA] at h2; exact h2
      cases ok with
      | false => simp [shakeHands, if_neg hc, hA, countSends_append, hevs, countSends]
      | true =>
        cases hN : g1.Next with
        | error e =>
          simp [shakeHands, if_neg hc, hA, hN, countSends_append, hevs, countSends]
        | ok p =>
          rcases p with ⟨subnet, g2⟩
          cases sendOk <;>
            simp [shakeHands, if_neg hc, hA, hN, countSends_append, hevs,
              countSends, fetchIPv4Octets, tunAddresses]

/-- C5: a Reserve failure on a client-declared address yields a BadRequest
hello and terminates with an error; a Next failure yields a NoFreeIPs
hello and terminates with an error. -/
theorem shakeHands_failure_statuses (cfg : ServerConfig) (ch : ClientHello)
    (sendOk : Bool) (g g1 : IPGenerator) (evs : List HEvent)
    (hpass : cfg.Passcode = "" ∨ ch.Passcode = cfg.Passcode) :
    (reserveAll g ch.UnavailablePrivateIPs = (g1, evs, false) →
      (shakeHands cfg (some ch) sendOk g).events =
        evs ++ [.sendHello { Status := HandshakeStatusBadRequest } sendOk] ∧
      (shakeHands cfg (some ch) sendOk g).result = .error "error reserving IP") ∧
    (∀ e : String, reserveAll g ch.UnavailablePrivateIPs = (g1, evs, true) →
      g1.Next = .error e →
      (shakeHands cfg (some ch) sendOk g).events =
        evs ++ [.nextCall, .sendHello { Status := HandshakeNoFreeIPs } sendOk] ∧
      (shakeHands cfg (some ch) sendOk g).result =
        .error "error getting free subnet IP") := by
  have hc : ¬(cfg.Passcode ≠ "" ∧ ch.Passcode ≠ cfg.Passcode) := by
    rcases hpass with h | h
    · intro hx; exact hx.1 h
    · intro hx; exact hx.2 h
  constructor
  · intro hres
    constructor
    · simp [shakeHands, if_neg hc, hres]
    · simp [shakeHands, if_neg hc, hres]
  · intro e hres hnext
    constructor
    · simp [shakeHands, if_neg hc, hres, hnext]
    · simp [shakeHands, if_neg hc, hres, hnext]

/-- C5 witness: a malformed declared address yields BadRequest on a fresh
pool; an exhausted pool (cursor at the block count) yields NoFreeIPs. -/
theorem shakeHands_failure_statuses_witness :
    ((shakeHands ⟨""⟩ (some ⟨"", [.malformed]⟩) true NewIPGenerator).events =
        [.reserveCall .malformed] ++
          [.sendHello { Status := HandshakeStatusBadRequest } true] ∧
      (shakeHands ⟨""⟩ (some ⟨"", [.malformed]⟩) true NewIPGenerator).result =
        .error "error reserving IP") ∧
    ((shakeHands ⟨""⟩ (some ⟨"", []⟩) true
        { NewIPGenerator with cursor := numBlocks }).events =
        [] ++ [.nextCall, .sendHello { Status := HandshakeNoFreeIPs } true] ∧
      (shakeHands ⟨""⟩ (some ⟨"", []⟩) true
        { NewIPGenerator with cursor := numBlocks }).result =
        .error "error getting free subnet IP") :=
  ⟨(shakeHands_failure_statuses ⟨""⟩ ⟨"", [.malformed]⟩ true NewIPGenerator
      NewIPGenerator [.reserveCall .malformed] (Or.inl rfl)).1 rfl,
   (shakeHands_failure_statuses ⟨""⟩ ⟨"", []⟩ true
      { NewIPGenerator with cursor := numBlocks }
      { NewIPGenerator with cursor := numBlocks } [] (Or.inl rfl)).2
      "no free IPs left" rfl rfl⟩

/-- C10: the four derived TUN addresses change only the fourth octet,
adding the offsets 2, 1, 4, 3 in byte arithmetic mod 256; when the base
fourth octet is at least 252 the client TUN IP wraps around modulo 256
and the third octet does not carry. -/
theorem tunAddresses_byte_arithmetic (o0 o1 o2 o3 : Nat)
    (h0 : o0 < 256) (h1 : o1 < 256) (h2 : o2 < 256) (h3 : o3 < 256) :
    tunAddresses o0 o1 o2 o3 =
      (⟨o0, o1, o2, (o3 + 2) % 256⟩, ⟨o0, o1, o2, (o3 + 1) % 256⟩,
       ⟨o0, o1, o2, (o3 + 4) % 256⟩, ⟨o0, o1, o2, (o3 + 3) % 256⟩) ∧
    (252 ≤ o3 →
      (tunAddresses o0 o1 o2 o3).2.2.1.o2 = o2 ∧
      (tunAddresses o0 o1 o2 o3).2.2.1.o3 = o3 + 4 - 256) := by
  constructor
  · simp [tunAddresses, netIPv4, Nat.mod_eq_of_lt, h0, h1, h2]
  · intro hge
    constructor
    · simp only [tunAddresses, netIPv4]
      omega
    · simp only [tunAddresses, netIPv4]
      omega

/-- C10 witness: base octet 252 wraps: 252 + 4 gives fourth octet 0 with
the third octet unchanged. -/
theorem tunAddresses_byte_arithmetic_witness :
    tunAddresses 10 1 2 252 =
      (⟨10, 1, 2, (252 + 2) % 256⟩, ⟨10, 1, 2, (252 + 1) % 256⟩,
       ⟨10, 1, 2, (252 + 4) % 256⟩, ⟨10, 1, 2, (252 + 3) % 256⟩) ∧
    (252 ≤ 252 →
      (tunAddresses 10 1 2 252).2.2.1.o2 = 2 ∧
      (tunAddresses 10 1 2 252).2.2.1.o3 = 252 + 4 - 256) :=
  tunAddresses_byte_arithmetic 10 1 2 252 (by decide) (by decide) (by decide)
    (by decide)

/-- C1: on a successful handshake that allocated the block with base B,
the hello sent to the client carries TUNIP B + 4 and TUNGateway B + 3,
and the caller receives the server-side pair B + 2 and B + 1. -/
theorem shakeHands_address_assignment (cfg : ServerConfig) (ch : ClientHello)
    (g g1 g2 : IPGenerator) (evs : List HEvent) (B : IPv4)
    (hg0 : g1.net0 < 256) (hg1 : g1.net1 < 256)
    (hpass : cfg.Passcode = "" ∨ ch.Passcode = cfg.Passcode)
    (hres : reserveAll g ch.UnavailablePrivateIPs = (g1, evs, true))
    (hnext : g1.Next = .ok (B, g2)) :
    ∃ sh : ServerHello,
      (shakeHands cfg (some ch) true g).events =
        evs ++ [.nextCall, .sendHello sh true] ∧
      (∃ cIP cGW : IPv4, sh.TUNIP = some cIP ∧ sh.TUNGateway = some cGW ∧
        cIP.toNat = B.toNat + 4 ∧ cGW.toNat = B.toNat + 3) ∧
      ∃ sIP sGW : IPv4,
        (shakeHands cfg (some ch) true g).result = .ok (sIP, sGW) ∧
        sIP.toNat = B.toNat + 2 ∧ sGW.toNat = B.toNat + 1 := by
  obtain ⟨k, hk, hB, hg2⟩ := Next_shape g1 B g2 hnext
  have hEq := shakeHands_success_eq cfg ch true g g1 g2 evs B hpass hres hnext
  have h0 : B.o0 < 256 := by rw [hB]; simpa [blockBase] using hg0
  have h1 : B.o1 < 256 := by rw [hB]; simpa [blockBase] using hg1
  have h2 : B.o2 < 256 := by rw [hB]; exact blockBase_o2_lt g1 k hk
  have h34 : B.o3 + 4 < 256 := by rw [hB]; exact blockBase_o3_bound g1 k
  refine ⟨{ Status := 0, TUNIP := some (netIPv4 B.o0 B.o1 B.o2 (B.o3 + 4)),
            TUNGateway := some (netIPv4 B.o0 B.o1 B.o2 (B.o3 + 3)) },
    by rw [hEq],
    ⟨netIPv4 B.o0 B.o1 B.o2 (B.o3 + 4), netIPv4 B.o0 B.o1 B.o2 (B.o3 + 3),
      rfl, rfl, toNat_netIPv4_offset B 4 h0 h1 h2 h34,
      toNat_netIPv4_offset B 3 h0 h1 h2 (by omega)⟩,
    netIPv4 B.o0 B.o1 B.o2 (B.o3 + 2), netIPv4 B.o0 B.o1 B.o2 (B.o3 + 1),
    by rw [hEq]; rfl,
    toNat_netIPv4_offset B 2 h0 h1 h2 (by omega),
    toNat_netIPv4_offset B 1 h0 h1 h2 (by omega)⟩

/-- C1 witness: first handshake on a fresh pool with no passcode and no
declared addresses allocates block 0 with base 192.168.0.0. -/
theorem shakeHands_address_assignment_witness :
    ∃ sh : ServerHello,
      (shakeHands ⟨""⟩ (some ⟨"", []⟩) true NewIPGenerator).events =
        [] ++ [.nextCall, .sendHello sh true] ∧
      (∃ cIP cGW : IPv4, sh.TUNIP = some cIP ∧ sh.TUNGateway = some cGW ∧
        cIP.toNat = (IPv4.mk 192 168 0 0).toNat + 4 ∧
        cGW.toNat = (IPv4.mk 192 168 0 0).toNat + 3) ∧
      ∃ sIP sGW : IPv4,
        (shakeHands ⟨""⟩ (some ⟨"", []⟩) true NewIPGenerator).result =
          .ok (sIP, sGW) ∧
        sIP.toNat = (IPv4.mk 192 168 0 0).toNat + 2 ∧
        sGW.toNat = (IPv4.mk 192 168 0 0).toNat + 1 :=
  shakeHands_address_assignment ⟨""⟩ ⟨"", []⟩ NewIPGenerator NewIPGenerator
    ⟨192, 168, 1, [], [0]⟩ [] ⟨192, 168, 0, 0⟩ (by decide) (by decide)
    (Or.inl rfl) rfl rfl

/-- C9: on the success path the sent hello is the zero-valued ServerHello
with only TUNIP and TUNGateway filled in, so its Status is the zero value
of the status type, which is the OK code. -/
theorem shakeHands_success_status_zero (cfg : ServerConfig) (ch : ClientHello)
    (sendOk : Bool) (g g1 g2 : IPGenerator) (evs : List HEvent) (B : IPv4)
    (hpass : cfg.Passcode = "" ∨ ch.Passcode = cfg.Passcode)
    (hres : reserveAll g ch.UnavailablePrivateIPs = (g1, evs, true))
    (hnext : g1.Next = .ok (B, g2)) :
    ∃ cIP cGW : IPv4,
      (shakeHands cfg (some ch) sendOk g).events =
        evs ++ [.nextCall, .sendHello
          { zeroServerHello with
              TUNIP := some cIP, TUNGateway := some cGW } sendOk] ∧
      ({ zeroServerHello with
           TUNIP := some cIP, TUNGateway := some cGW } : ServerHello).Status =
        zeroServerHello.Status ∧
      zeroServerHello.Status = HandshakeStatusOK := by
  have hEq := shakeHands_success_eq cfg ch sendOk g g1 g2 evs B hpass hres hnext
  exact ⟨netIPv4 B.o0 B.o1 B.o2 (B.o3 + 4), netIPv4 B.o0 B.o1 B.o2 (B.o3 + 3),
    by rw [hEq]; rfl, rfl, rfl⟩

/-- C9 witness: the success-path hello of the first fresh-pool handshake
carries the zero status, which is the OK code. -/
theorem shakeHands_success_status_zero_witness :
    ∃ cIP cGW : IPv4,
      (shakeHands ⟨""⟩ (some ⟨"", []⟩) true NewIPGenerator).events =
        [] ++ [.nextCall, .sendHello
          { zeroServerHello with
              TUNIP := some cIP, TUNGateway := some cGW } true] ∧
      ({ zeroServerHello with
           TUNIP := some cIP, TUNGateway := some cGW } : ServerHello).Status =
        zeroServerHello.Status ∧
      zeroServerHello.Status = HandshakeStatusOK :=
  shakeHands_success_status_zero ⟨""⟩ ⟨"", []⟩ true NewIPGenerator
    NewIPGenerator ⟨192, 168, 1, [], [0]⟩ [] ⟨192, 168, 0, 0⟩ (Or.inl rfl)
    rfl rfl

/-- C8: after a successful allocation, a failure of the final hello send is
returned to the caller as an error and the allocation is not rolled back:
the pool state is the post-allocation state and the block stays marked
allocated. -/
theorem shakeHands_send_failure_keeps_allocation (cfg : ServerConfig)
    (ch : ClientHello) (g g1 g2 : IPGenerator) (evs : List HEvent) (B : IPv4)
    (hpass : cfg.Passcode = "" ∨ ch.Passcode = cfg.Passcode)
    (hres : reserveAll g ch.UnavailablePrivateIPs = (g1, evs, true))
    (hnext : g1.Next = .ok (B, g2)) :
    (shakeHands cfg (some ch) false g).result =
      .error "error sending server hello" ∧
    (shakeHands cfg (some ch) false g).gen = g2 ∧
    ∃ k, B = blockBase g1 k ∧ k ∈ g2.allocated := by
  have hEq := shakeHands_success_eq cfg ch false g g1 g2 evs B hpass hres hnext
  obtain ⟨k, hk, hB, hg2⟩ := Next_shape g1 B g2 hnext
  refine ⟨by simp [hEq], by simp [hEq], k, hB, ?_⟩
  simp [hg2]

/-- C8 witness: the first fresh-pool handshake with a failing final send
returns an error and leaves block 0 allocated. -/
theorem shakeHands_send_failure_keeps_allocation_witness :
    (shakeHands ⟨""⟩ (some ⟨"", []⟩) false NewIPGenerator).result =
      .error "error sending server hello" ∧
    (shakeHands ⟨""⟩ (some ⟨"", []⟩) false NewIPGenerator).gen =
      ⟨192, 168, 1, [], [0]⟩ ∧
    ∃ k, (IPv4.mk 192 168 0 0) = blockBase NewIPGenerator k ∧
      k ∈ (IPGenerator.mk 192 168 1 [] [0]).allocated :=
  shakeHands_send_failure_keeps_allocation ⟨""⟩ ⟨"", []⟩ NewIPGenerator
    NewIPGenerator ⟨192, 168, 1, [], [0]⟩ [] ⟨192, 168, 0, 0⟩ (Or.inl rfl)
    rfl rfl

/-- The final state of Serve: the guard state is marked done by the first
invocation whatever the outcome of the body. -/
theorem Serve_fst (s : ServerState) (w : ServeWorld) :
    (Serve s w).1 = if s.onceDone then s else { s with onceDone := true } := by
  by_cases h : s.onceDone
  · simp [Serve, h]
  · simp only [Serve, h, Bool.false_eq_true, if_false]
    repeat' split
    all_goals rfl

/-- C6: a second invocation of Serve returns the already-serving error,
leaves the state unchanged, produces no events, and in particular never
repeats an enable step. -/
theorem Serve_second_invocation (s : ServerState) (w w2 : ServeWorld)
    (h : s.onceDone = false) :
    Serve (Serve s w).1 w2 = ((Serve s w).1, [], "already serving") ∧
    countEnables (Serve (Serve s w).1 w2).2.1 = 0 := by
  have hd : (Serve s w).1.onceDone = true := by
    rw [Serve_fst]; simp [h]
  have he : Serve (Serve s w).1 w2 = ((Serve s w).1, [], "already serving") := by
    generalize (Serve s w).1 = t at hd ⊢
    simp [Serve, hd]
  exact ⟨he, by rw [he]; rfl⟩

/-- C6 witness: a concrete server served twice with every external call
succeeding. -/
theorem Serve_second_invocation_witness :
    Serve (Serve ⟨false, "1", "1", "eth0"⟩
        ⟨true, true, true, true, true, true, true, true⟩).1
      ⟨true, true, true, true, true, true, true, true⟩ =
      ((Serve ⟨false, "1", "1", "eth0"⟩
          ⟨true, true, true, true, true, true, true, true⟩).1,
        [], "already serving") ∧
    countEnables (Serve (Serve ⟨false, "1", "1", "eth0"⟩
        ⟨true, true, true, true, true, true, true, true⟩).1
      ⟨true, true, true, true, true, true, true, true⟩).2.1 = 0 :=
  Serve_second_invocation ⟨false, "1", "1", "eth0"⟩
    ⟨true, true, true, true, true, true, true, true⟩
    ⟨true, true, true, true, true, true, true, true⟩ rfl

/-- C7: when global setup completed, the Serve trace ends with the
teardown in strict reverse order of setup, and every restoration step is
attempted whatever the outcome of the previous ones. -/
theorem Serve_teardown_reverse_order (s : ServerState) (w : ServeWorld)
    (h : s.onceDone = false) (h1 : w.privSetupOk = true)
    (h2 : w.enableIPv4Ok = true) (h3 : w.enableIPv6Ok = true)
    (h4 : w.enableMasqOk = true) :
    (Serve s w).2.1 =
      [.privSetup true, .enableIPv4 true, .enableIPv6 true,
       .enableMasq s.defaultNetworkInterface true,
       .privRelease, .acceptLoop,
       .privSetup w.privReSetupOk,
       .disableMasq s.defaultNetworkInterface w.disableMasqOk,
       .setIPv6 s.ipv6ForwardingVal w.restoreIPv6Ok,
       .setIPv4 s.ipv4ForwardingVal w.restoreIPv4Ok,
       .privRelease] := by
  simp [Serve, h, h1, h2, h3, h4]

/-- C7 witness: every restoration step fails, yet all three are attempted,
in the order disable masquerading, restore IPv6, restore IPv4. -/
theorem Serve_teardown_reverse_order_witness :
    (Serve ⟨false, "1", "0", "eth0"⟩
        ⟨true, true, true, true, false, false, false, true⟩).2.1 =
      [.privSetup true, .enableIPv4 true, .enableIPv6 true,
       .enableMasq "eth0" true,
       .privRelease, .acceptLoop,
       .privSetup true,
       .disableMasq "eth0" false,
       .setIPv6 "0" false,
       .setIPv4 "1" false,
       .privRelease] :=
  Serve_teardown_reverse_order ⟨false, "1", "0", "eth0"⟩
    ⟨true, true, true, true, false, false, false, true⟩ rfl rfl rfl rfl rfl

/-- C2 (code evidence): on the full success path of serveConn, elevated
privileges are re-acquired before the relay phase starts (the
setupSysPrivileges call after SetupTUN is not deferred), so privileges are
held during the data relay. -/
theorem serveConn_priv_held_during_relay :
    privHeldDuringRelay (serveConn ⟨true, true, true, true, true⟩) = true := by
  decide
